import Mathlib

set_option autoImplicit false

/-!
Shallow embedding of the wixpkgdep provider/dependency registration checker,
translated from src/version.rs, src/registry.rs, src/provider.rs and
src/lib.rs. The external hierarchical key-value store is modelled as a tree
of nodes holding typed values and children; native failures carry their
HRESULT code as a natural number.
-/

deriving instance DecidableEq for Except

/-- Error enum of src/lib.rs; the registry error keeps the native error code. -/
inductive Error where
  | format
  | notFound
  | notSupported
  | registryError (code : Nat)
deriving DecidableEq

/-- Scope enum of src/lib.rs. -/
inductive Scope where
  | user
  | machine
deriving DecidableEq

/-- Attributes enum of src/lib.rs: a plain three-valued enum with the
discriminants None = 0, MinVersionInclusive = 0x100, MaxVersionInclusive = 0x200. -/
inductive Attributes where
  | none
  | minVersionInclusive
  | maxVersionInclusive
deriving DecidableEq

/-- Discriminant of an Attributes value (`attributes as u32`). -/
def Attributes.toU32 : Attributes → Nat
  | .none => 0
  | .minVersionInclusive => 0x100
  | .maxVersionInclusive => 0x200

/-- BitAnd for Attributes (src/lib.rs): `(self as u32) & (rhs as u32)`; the
output is a raw u32, not an Attributes. -/
def Attributes.band (a b : Attributes) : Nat := a.toU32 &&& b.toU32

/-- BitOr for Attributes (src/lib.rs): `(self as u32) | (rhs as u32)`. -/
def Attributes.bor (a b : Attributes) : Nat := a.toU32 ||| b.toU32

/-- Version of src/version.rs: `struct Version(u64)`, the four 16-bit fields
packed into one 64-bit ordinal (kept as a natural number below 2^64). -/
structure Version where
  val : Nat
deriving DecidableEq

/-- From<[u16; 4]> for Version: packs (major, minor, build, revision) by
shifting into disjoint 16-bit lanes. -/
def Version.ofFields (major minor build revision : Nat) : Version :=
  ⟨(major <<< 48) ||| (minor <<< 32) ||| (build <<< 16) ||| revision⟩

/-- Comparison `<=` on Version: the derived order on the packed u64. -/
def Version.ble (a b : Version) : Bool := Nat.ble a.val b.val

/-- Comparison `<` on Version: the derived order on the packed u64. -/
def Version.blt (a b : Version) : Bool := Nat.blt a.val b.val

/-- Rust `str::parse::<u16>` (`u16::from_str`): an optional leading `+` sign,
then one or more ASCII decimal digits, value at most 65535. -/
def parseU16 (cs : List Char) : Option Nat :=
  let ds := match cs with
    | '+' :: rest => rest
    | _ => cs
  if ds.isEmpty then none
  else if ds.all Char.isDigit then
    let n := ds.foldl (fun acc c => acc * 10 + (c.toNat - 48)) 0
    if n ≤ 65535 then some n else none
  else none

/-- Rust `str::trim_start_matches(|c| c == 'v' || c == 'V')`: removes every
leading `v` or `V`. -/
def trimStartVs : List Char → List Char
  | [] => []
  | c :: rest => if c = 'v' ∨ c = 'V' then trimStartVs rest else c :: rest

/-- Rust `str::split('.')` on a character list: the pattern is non-empty, so
the empty string yields one empty field and a trailing dot an empty field. -/
def splitOnDot : List Char → List (List Char)
  | [] => [[]]
  | '.' :: rest => [] :: splitOnDot rest
  | c :: rest =>
    match splitOnDot rest with
    | [] => [[c]]
    | f :: r => (c :: f) :: r

/-- Loop of `TryFrom<&str> for Version` (src/version.rs): fields are assigned
by increasing index `i` and an index of 4 or more is a format error. -/
def tryParseFields : List (List Char) → Nat → Except Error (List Nat)
  | [], _ => .ok []
  | p :: rest, i =>
    if i ≥ 4 then .error .format
    else
      match parseU16 p with
      | none => .error .format
      | some n =>
        match tryParseFields rest (i + 1) with
        | .error e => .error e
        | .ok ns => .ok (n :: ns)

/-- The parsed fields placed into `[0u16; 4]`: omitted trailing fields stay 0. -/
def padFields (ns : List Nat) : Version :=
  Version.ofFields (ns.getD 0 0) (ns.getD 1 0) (ns.getD 2 0) (ns.getD 3 0)

/-- TryFrom<&str> for Version (src/version.rs): trims every leading `v`/`V`,
splits on `.`, and parses at most four u16 fields. -/
def Version.try_from (s : String) : Except Error Version :=
  match tryParseFields (splitOnDot (trimStartVs s.toList)) 0 with
  | .error e => .error e
  | .ok ns => .ok (padFields ns)

/-- Registry value type tag REG_SZ. -/
def REG_SZ : Nat := 1

/-- Registry value type tag REG_EXPAND_SZ. -/
def REG_EXPAND_SZ : Nat := 2

/-- Registry value type tag REG_BINARY. -/
def REG_BINARY : Nat := 3

/-- Registry value type tag REG_DWORD. -/
def REG_DWORD : Nat := 4

/-- Registry value type tag REG_MULTI_SZ. -/
def REG_MULTI_SZ : Nat := 7

/-- Registry value type tag REG_QWORD. -/
def REG_QWORD : Nat := 11

/-- Typed registry data of src/registry.rs (`enum Data`); bytes are naturals
below 256. -/
inductive Data where
  | binary (bytes : List Nat)
  | dword (v : Nat)
  | multiString (strings : List String)
  | qword (v : Nat)
  | string (s : String)
deriving DecidableEq

/-- Outcome of a Rust evaluation that may panic: `copy_from_slice` panics when
the source and destination slice lengths differ. -/
inductive PanicOr (α : Type) where
  | panicked
  | value (a : α)
deriving DecidableEq

/-- Little-endian value of a byte list (`u32::from_le_bytes` / `u64::from_le_bytes`):
the first byte is least significant. -/
def leValue (bs : List Nat) : Nat := bs.foldr (fun b acc => b % 256 + 256 * acc) 0

/-- Little-endian u16 units of a byte buffer (`from_raw_parts(ptr as *const u16,
len / 2)`): a trailing odd byte is dropped. -/
def toU16s : List Nat → List Nat
  | b0 :: b1 :: rest => (b0 % 256 + 256 * (b1 % 256)) :: toU16s rest
  | _ => []

/-- Takes the u16 units up to the first NUL (`PCWSTR::as_wide`). In the source
a buffer with no NUL keeps reading past its end; the model stops at the buffer. -/
def takeUntilNul (us : List Nat) : List Nat := us.takeWhile (fun u => u != 0)

/-- Replacement character U+FFFD used by lossy UTF-16 decoding. -/
def replacementChar : Char := Char.ofNat 0xFFFD

/-- String::from_utf16_lossy on u16 units: surrogate pairs combine into one
scalar, unpaired surrogates become U+FFFD. -/
def fromUtf16Lossy : List Nat → List Char
  | [] => []
  | u :: rest =>
    if u < 0xD800 ∨ 0xDFFF < u then Char.ofNat u :: fromUtf16Lossy rest
    else if 0xDBFF < u then replacementChar :: fromUtf16Lossy rest
    else
      match rest with
      | [] => [replacementChar]
      | v :: rest2 =>
        if 0xDC00 ≤ v ∧ v ≤ 0xDFFF then
          Char.ofNat (0x10000 + (u - 0xD800) * 0x400 + (v - 0xDC00)) :: fromUtf16Lossy rest2
        else
          replacementChar :: fromUtf16Lossy (v :: rest2)

/-- Rust `slice::split(|c| *c == 0)`: subslices separated by NUL units, the
separators dropped, boundary empties kept. -/
def splitOnZero : List Nat → List (List Nat)
  | [] => [[]]
  | u :: rest =>
    if u = 0 then [] :: splitOnZero rest
    else
      match splitOnZero rest with
      | [] => [[u]]
      | f :: r => (u :: f) :: r

/-- Data::from of src/registry.rs: interprets a raw byte buffer plus a type
tag. The REG_DWORD and REG_QWORD arms `copy_from_slice` into fixed 4- and
8-byte arrays and so panic on any other buffer length; unknown tags decode to
nothing (absence). -/
def Data.fromBytes (data : List Nat) (data_type : Nat) : PanicOr (Option Data) :=
  if data_type = REG_BINARY then .value (some (.binary data))
  else if data_type = REG_DWORD then
    if data.length = 4 then .value (some (.dword (leValue data))) else .panicked
  else if data_type = REG_QWORD then
    if data.length = 8 then .value (some (.qword (leValue data))) else .panicked
  else if data_type = REG_SZ ∨ data_type = REG_EXPAND_SZ then
    if data.isEmpty then .value (some (.string ""))
    else .value (some (.string (String.mk (fromUtf16Lossy (takeUntilNul (toU16s data))))))
  else if data_type = REG_MULTI_SZ then
    .value (some (.multiString ((splitOnZero (toU16s data)).filterMap
      (fun s => if s.isEmpty then none else some (String.mk (fromUtf16Lossy s))))))
  else .value none

/-- The native code `HRESULT_FROM_WIN32(ERROR_FILE_NOT_FOUND)`, 0x80070002
(`E_FILE_NOT_FOUND` of src/registry.rs). -/
def E_FILE_NOT_FOUND : Nat := 0x80070002

/-- A node of the hierarchical store as the engine sees it: named typed values
and child keys. Opening a present child can still fail with a native error
code (an `Except.error` entry); opening an absent name fails with
`E_FILE_NOT_FOUND`. -/
inductive Node where
  | mk (values : List (String × Data)) (children : List (String × Except Nat Node))

/-- Named values of a node. -/
def Node.values : Node → List (String × Data)
  | .mk v _ => v

/-- Child entries of a node. -/
def Node.children : Node → List (String × Except Nat Node)
  | .mk _ c => c

/-- Key::value of src/registry.rs at the engine level: a single named value
(the empty name is the unnamed/default value); every failure is absence,
never an error. -/
def Node.value (n : Node) (name : String) : Option Data :=
  match n.values.find? (fun kv => kv.1 == name) with
  | some kv => some kv.2
  | none => none

/-- Key::open_subkey of src/registry.rs at the engine level: the raw result
with a native error code on failure. -/
def Node.openSubkey (n : Node) (name : String) : Except Nat Node :=
  match n.children.find? (fun kv => kv.1 == name) with
  | some kv => kv.2
  | none => .error E_FILE_NOT_FOUND

/-- Key::keys of src/registry.rs at the engine level: the enumerated child
names in store order; Keys::next re-opens each child and ends the lazy
sequence at the first child that fails to open. -/
def Node.keysList (n : Node) : List String :=
  (n.children.takeWhile (fun kv =>
    match kv.2 with
    | .ok _ => true
    | .error _ => false)).map (fun kv => kv.1)

/-- The store as the engine reaches it: opening the fixed root path
`Software\Classes\Installer\Dependencies` under a scope's hive yields the
root node for that scope or a native error code. -/
def Store := Scope → Except Nat Node

/-- map_registry_error of src/lib.rs: the file-not-found code becomes
`Error::NotFound`, anything else a registry error carrying the code. -/
def mapRegistryError (code : Nat) : Error :=
  if code = E_FILE_NOT_FOUND then .notFound else .registryError code

/-- Result-error mapping (`map_err`). -/
def mapErr {ε ε' α : Type} (f : ε → ε') : Except ε α → Except ε' α
  | .ok a => .ok a
  | .error e => .error (f e)

/-- Rust `str::to_uppercase` restricted to the ASCII case mapping: letters
a-z map to A-Z, every other character is unchanged (the full Unicode mapping
table is elided; only the case-folding structure matters here). -/
def to_uppercase (s : String) : String := String.mk (s.toList.map Char.toUpper)

/-- Provider of src/provider.rs: key, optional display name, version,
optional external id, optional attributes. -/
structure Provider where
  key : String
  name : String
  version : Version
  id : Option String
  attributes : Option Attributes
deriving DecidableEq

/-- PartialEq for Provider (src/provider.rs): the keys compared after
uppercasing, every other field ignored. -/
def Provider.beq (p q : Provider) : Bool := to_uppercase p.key == to_uppercase q.key

/-- Deterministic string hash standing in for the hasher state: Hash for
Provider (src/provider.rs) feeds `self.key.to_uppercase()` to the hasher, so
a provider's hash is this function of its uppercased key. -/
def strHash (s : String) : Nat :=
  s.toList.foldl (fun h c => (h * 131 + c.toNat) % 2 ^ 64) 5381

/-- Hash for Provider (src/provider.rs): the hash of the uppercased key. -/
def Provider.hashValue (p : Provider) : Nat := strHash (to_uppercase p.key)

/-- Modelled from the spec: `Provider::new` as called by src/lib.rs (the
constructor itself is not among the source files, which only carry the
analogous `Dependency::new`) — "a bare Provider Record (key only, no
metadata)", the remaining fields at their defaults. -/
def Provider.new (provider_key : String) : Provider :=
  { key := provider_key, name := "", version := ⟨0⟩, id := none, attributes := none }

/-- Modelled from the spec: `Value::as_version` as called by src/lib.rs (not
among the source files) — a `Version` value is "string or packed integer",
decoded through the Version model; anything else is no version. -/
def Data.asVersion : Data → Option Version
  | .string s =>
    match Version.try_from s with
    | .ok v => some v
    | .error _ => none
  | .qword v => some ⟨v⟩
  | _ => none

/-- Modelled from the spec: building a full Provider Record from a provider's
key node — "the `id` comes from the node's unnamed/default value, `name` from
a `DisplayName` value, `version` from a `Version` value". src/lib.rs calls
`Provider::from` (total there) and `Provider::from_requires_display_name`,
neither of which is among the source files in the form lib.rs expects; per
the spec the record's name and id are optional, so the build is total. -/
def Provider.ofNode (provider_key : String) (k : Node) : Provider :=
  { key := provider_key
    name :=
      match Node.value k "DisplayName" with
      | some (.string s) => s
      | _ => ""
    version := ((Node.value k "Version").bind Data.asVersion).getD ⟨0⟩
    id :=
      match Node.value k "" with
      | some (.string s) => some s
      | _ => none
    attributes := none }

/-- Modelled from the spec: `Provider::from_requires_display_name` as called
by src/lib.rs step 3 — "decode the version and build a full Provider Record
for the dependency". -/
def Provider.fromRequiresDisplayName (provider_key : String) (k : Node) : Provider :=
  Provider.ofNode provider_key k

/-- HashSet<Provider>::insert under Provider's eq: inserting a provider whose
key is already a member (up to uppercasing) leaves the set unchanged. -/
def insertProvider (s : List Provider) (p : Provider) : List Provider :=
  if s.any (fun q => Provider.beq q p) then s else s ++ [p]

/-- get_provider of src/lib.rs: opens the store root for the scope, then the
provider's key under it, mapping the file-not-found code to `Error.notFound`,
and reads the Provider Record from the opened key. -/
def get_provider (store : Store) (provider_key : String) (scope : Scope) :
    Except Error Provider :=
  match mapErr mapRegistryError (store scope) with
  | .error e => .error e
  | .ok root =>
    match mapErr mapRegistryError (Node.openSubkey root provider_key) with
    | .error e => .error e
    | .ok k => .ok (Provider.ofNode provider_key k)

/-- Failure of the supplied minimum bound (src/lib.rs): `allow_equal` comes
from the MinVersionInclusive bit of the defaulted attributes, and the
requirement is `allow_equal && min <= version || min < version`. -/
def minVersionFails (min_version : Option Version) (attributes : Option Attributes)
    (version : Version) : Bool :=
  match min_version with
  | none => false
  | some minv =>
    let allow_equal :=
      Attributes.band (attributes.getD .none) .minVersionInclusive ==
        Attributes.toU32 .minVersionInclusive
    !(allow_equal && Version.ble minv version || Version.blt minv version)

/-- Failure of the supplied maximum bound (src/lib.rs): symmetric to the
minimum with the MaxVersionInclusive bit and `version <= max` / `version < max`. -/
def maxVersionFails (max_version : Option Version) (attributes : Option Attributes)
    (version : Version) : Bool :=
  match max_version with
  | none => false
  | some maxv =>
    let allow_equal :=
      Attributes.band (attributes.getD .none) .maxVersionInclusive ==
        Attributes.toU32 .maxVersionInclusive
    !(allow_equal && Version.ble version maxv || Version.blt version maxv)

/-- check_dependencies of src/lib.rs. Failure to open the root is wrapped in
`Error::RegistryError` unconditionally. Note the version lookup: the source
reads `key.value(w!("Version"))` inside the `Ok(k)` arm of `let key = match …`,
where `key` still denotes the outer binding — the store root — so the
`Version` value is read from the ROOT node, not from the opened dependency
subkey `k`; the embedding reproduces that faithfully. -/
def check_dependencies (store : Store) (provider_key : String) (scope : Scope)
    (min_version max_version : Option Version) (attributes : Option Attributes)
    (dependencies : List Provider) : Except Error Unit × List Provider :=
  match store scope with
  | .error c => (.error (.registryError c), dependencies)
  | .ok key =>
    match mapErr mapRegistryError (Node.openSubkey key provider_key) with
    | .ok k =>
      match (Node.value key "Version").bind Data.asVersion with
      | some version =>
        let provider := Provider.fromRequiresDisplayName provider_key k
        if minVersionFails min_version attributes version then
          (.error .notFound, insertProvider dependencies provider)
        else if maxVersionFails max_version attributes version then
          (.error .notFound, insertProvider dependencies provider)
        else
          (.ok (), dependencies)
      | none => (.error .notFound, insertProvider dependencies (Provider.new provider_key))
    | .error .notFound =>
      (.error .notFound, insertProvider dependencies (Provider.new provider_key))
    | .error e => (.error e, dependencies)

/-- Membership in the optional ignore set (src/lib.rs): plain
HashSet<String> membership, literal case-sensitive string equality. -/
def ignoreContains (ignore : Option (List String)) (name : String) : Bool :=
  match ignore with
  | some l => l.contains name
  | none => false

/-- Resolution of one enumerated dependent name (src/lib.rs closure): a full
record via get_provider when that succeeds, else a bare record of the name. -/
def resolveDependent (store : Store) (scope : Scope) (name : String) : Provider :=
  match get_provider store name scope with
  | .ok p => p
  | .error _ => Provider.new name

/-- check_dependents of src/lib.rs: `NotFound` on the root, the provider's
key or its `Dependents` child means "no dependents" (`Ok(None)`); any other
open error propagates; otherwise the enumerated dependent names, minus exact
members of the ignore set, each resolved or falling back to a bare record. -/
def check_dependents (store : Store) (provider_key : String) (scope : Scope)
    (_attributes : Option Attributes) (ignore : Option (List String)) :
    Except Error (Option (List Provider)) :=
  match mapErr mapRegistryError (store scope) with
  | .error .notFound => .ok none
  | .error e => .error e
  | .ok key =>
    match mapErr mapRegistryError (Node.openSubkey key provider_key) with
    | .error .notFound => .ok none
    | .error e => .error e
    | .ok key =>
      match mapErr mapRegistryError (Node.openSubkey key "Dependents") with
      | .error .notFound => .ok none
      | .error e => .error e
      | .ok key =>
        .ok (some ((Node.keysList key).filterMap (fun name =>
          if ignoreContains ignore name then none
          else some (resolveDependent store scope name))))

/-! Spec-side predicates: definitions following the words of the claims, to
be compared with the source-side functions above. -/

/-- Fields test in the words of claim C7: the dot-separated fields (at most
four of them) each parse as a 16-bit unsigned integer. -/
def specFieldsOk (cs : List Char) : Bool :=
  let ps := splitOnDot cs
  decide (ps.length ≤ 4) && ps.all (fun p => (parseU16 p).isSome)

/-- Acceptance predicate of claim C7 read literally: the string passes the
fields test after AT MOST ONE optional leading `v`/`V` is ignored (either
ignoring it or not may succeed). -/
def claimC7Accepts (s : String) : Bool :=
  match s.toList with
  | [] => specFieldsOk []
  | c :: rest =>
    if c = 'v' ∨ c = 'V' then specFieldsOk rest || specFieldsOk (c :: rest)
    else specFieldsOk (c :: rest)

/-- Satisfaction of the minimum bound in the words of claim C3: `allow_equal`
holds exactly when the supplied attributes carry MinVersionInclusive (false
when attributes are absent), and the bound passes when
(`allow_equal` and `min <= version`) or (`min < version`); a missing bound
always passes. -/
def minSatisfiedSpec (min_version : Option Version) (attributes : Option Attributes)
    (version : Version) : Bool :=
  match min_version with
  | none => true
  | some minv =>
    (decide (attributes = some Attributes.minVersionInclusive) && Version.ble minv version) ||
      Version.blt minv version

/-- Satisfaction of the maximum bound in the words of claim C3, symmetric to
the minimum with MaxVersionInclusive. -/
def maxSatisfiedSpec (max_version : Option Version) (attributes : Option Attributes)
    (version : Version) : Bool :=
  match max_version with
  | none => true
  | some maxv =>
    (decide (attributes = some Attributes.maxVersionInclusive) && Version.ble version maxv) ||
      Version.blt version maxv

/-! Concrete stores used by the closed evaluations below. -/

/-- A childless node with no values. -/
def emptyNode : Node := .mk [] []

/-- Root for the C1 evaluation: no `Version` value on the root itself; the
dependency key `Foo` carries both `Version` and `DisplayName`. -/
def rootC1a : Node :=
  .mk [] [("Foo", .ok (.mk [("Version", .string "1.0"), ("DisplayName", .string "Foo")] []))]

/-- Mirror-image root for the C1 evaluation: the root carries a `Version`
value while the dependency key `Foo` has none. -/
def rootC1b : Node :=
  .mk [("Version", .string "9.9")] [("Foo", .ok (.mk [("DisplayName", .string "Foo")] []))]

/-- Store whose machine root is `rootC1a`. -/
def storeC1a : Store := fun s =>
  match s with
  | .machine => .ok rootC1a
  | .user => .error E_FILE_NOT_FOUND

/-- Store whose machine root is `rootC1b`. -/
def storeC1b : Store := fun s =>
  match s with
  | .machine => .ok rootC1b
  | .user => .error E_FILE_NOT_FOUND

/-- Root for the C4 evaluation: the root carries `Version` `3.0`; the
dependency key `Bar` exists but has no `Version` value of its own. -/
def rootC4 : Node :=
  .mk [("Version", .string "3.0")] [("Bar", .ok (.mk [("DisplayName", .string "Bar")] []))]

/-- Store whose machine root is `rootC4`. -/
def storeC4 : Store := fun s =>
  match s with
  | .machine => .ok rootC4
  | .user => .error E_FILE_NOT_FOUND

/-- Version 1.0.0.0. -/
def v100 : Version := Version.ofFields 1 0 0 0

/-- Version 2.0.0.0. -/
def v200 : Version := Version.ofFields 2 0 0 0

/-- Store for the C2 evaluations whose provider `P` is registered at version
1.0 (the `Version` value sits on the root node as well, where the code reads
it — see C1). -/
def storeC2lo : Store := fun s =>
  match s with
  | .machine =>
    .ok (.mk [("Version", .string "1.0")]
      [("P", .ok (.mk [("DisplayName", .string "P"), ("Version", .string "1.0")] []))])
  | .user => .error E_FILE_NOT_FOUND

/-- Store for the C2 evaluations whose provider `P` is registered at version
2.0. -/
def storeC2hi : Store := fun s =>
  match s with
  | .machine =>
    .ok (.mk [("Version", .string "2.0")]
      [("P", .ok (.mk [("DisplayName", .string "P"), ("Version", .string "2.0")] []))])
  | .user => .error E_FILE_NOT_FOUND

/-- Root for the C3 witness: provider `Q` at version 2.0. -/
def rootC3 : Node :=
  .mk [("Version", .string "2.0")]
    [("Q", .ok (.mk [("DisplayName", .string "Q"), ("Version", .string "2.0")] []))]

/-- Store whose machine root is `rootC3`. -/
def storeC3 : Store := fun s =>
  match s with
  | .machine => .ok rootC3
  | .user => .error E_FILE_NOT_FOUND

/-- Dependents node for the C9 witness, with children `a` and `B`. -/
def depsC9 : Node := .mk [] [("a", .ok emptyNode), ("B", .ok emptyNode)]

/-- Root for the C9 witness: provider `P` whose `Dependents` child holds the
dependents `a` and `B`. -/
def rootC9 : Node := .mk [] [("P", .ok (.mk [] [("Dependents", .ok depsC9)]))]

/-- Store whose machine root is `rootC9`. -/
def storeC9 : Store := fun s =>
  match s with
  | .machine => .ok rootC9
  | .user => .error E_FILE_NOT_FOUND

/-- Store for the C5 and C6 witnesses: machine root with provider `W` at
version 1.0, user hive absent. -/
def storeC5 : Store := fun s =>
  match s with
  | .machine =>
    .ok (.mk [("Version", .string "1.0")]
      [("W", .ok (.mk [("DisplayName", .string "W"), ("Version", .string "1.0")] []))])
  | .user => .error E_FILE_NOT_FOUND

/-- Store whose machine root fails to open with an access-denied style code
(not file-not-found). -/
def storeDenied : Store := fun _ => .error 0x80070005

/-! Sanity checks of the embedding against the unit tests of the source. -/

example : Version.try_from "1.2.3.4" = .ok (Version.ofFields 1 2 3 4) := by decide
example : Version.try_from "1.2" = .ok (Version.ofFields 1 2 0 0) := by decide
example : Version.try_from "v1.2.3.4" = .ok (Version.ofFields 1 2 3 4) := by decide
example : Version.try_from "V1.2.3.4" = .ok (Version.ofFields 1 2 3 4) := by decide
example : Version.try_from "test" = .error .format := by decide
example : Version.try_from "1.2.3.4.5" = .error .format := by decide
example : Version.try_from "65536" = .error .format := by decide
example : Version.ofFields 1 2 3 4 = ⟨281483566841860⟩ := by decide
example : Data.fromBytes [0, 1, 2, 3] REG_DWORD = .value (some (.dword 50462976)) := by decide
example :
    Data.fromBytes [0, 1, 2, 3, 4, 5, 6, 7] REG_QWORD =
      .value (some (.qword 506097522914230528)) := by decide
example : Data.fromBytes [0, 1, 2, 3] REG_BINARY = .value (some (.binary [0, 1, 2, 3])) := by decide
example :
    Data.fromBytes [104, 0, 101, 0, 108, 0, 108, 0, 111, 0] REG_SZ =
      .value (some (.string "hello")) := by decide
example : Data.fromBytes [] REG_SZ = .value (some (.string "")) := by decide
example :
    Data.fromBytes
      [104, 0, 101, 0, 108, 0, 108, 0, 111, 0, 0, 0,
       119, 0, 111, 0, 114, 0, 108, 0, 100, 0, 0, 0, 0, 0] REG_MULTI_SZ =
      .value (some (.multiString ["hello", "world"])) := by decide

/-! Helper lemmas shared by the claim theorems. -/

/-- The code's MinVersionInclusive bit test agrees with "the attributes carry
MinVersionInclusive". -/
lemma allowEqualMin_eq (attributes : Option Attributes) :
    (Attributes.band (attributes.getD .none) .minVersionInclusive ==
        Attributes.toU32 .minVersionInclusive) =
      decide (attributes = some Attributes.minVersionInclusive) := by
  cases attributes with
  | none => decide
  | some a => cases a <;> decide

/-- The code's MaxVersionInclusive bit test agrees with "the attributes carry
MaxVersionInclusive". -/
lemma allowEqualMax_eq (attributes : Option Attributes) :
    (Attributes.band (attributes.getD .none) .maxVersionInclusive ==
        Attributes.toU32 .maxVersionInclusive) =
      decide (attributes = some Attributes.maxVersionInclusive) := by
  cases attributes with
  | none => decide
  | some a => cases a <;> decide

/-- The code's minimum-bound failure test is the negation of the claim's
satisfaction predicate. -/
lemma minVersionFails_eq (min_version : Option Version) (attributes : Option Attributes)
    (version : Version) :
    minVersionFails min_version attributes version =
      !(minSatisfiedSpec min_version attributes version) := by
  cases min_version with
  | none => rfl
  | some minv =>
    simp only [minVersionFails, minSatisfiedSpec, allowEqualMin_eq]

/-- The code's maximum-bound failure test is the negation of the claim's
satisfaction predicate. -/
lemma maxVersionFails_eq (max_version : Option Version) (attributes : Option Attributes)
    (version : Version) :
    maxVersionFails max_version attributes version =
      !(maxSatisfiedSpec max_version attributes version) := by
  cases max_version with
  | none => rfl
  | some maxv =>
    simp only [maxVersionFails, maxSatisfiedSpec, allowEqualMax_eq]

/-- A filterMap whose function skips on a test and wraps otherwise is the
filter followed by the map. -/
lemma filterMap_skip_eq (l : List String) (p : String → Bool) (g : String → Provider) :
    l.filterMap (fun n => if p n then none else some (g n)) =
      (l.filter (fun n => !p n)).map g := by
  induction l with
  | nil => rfl
  | cons a t ih =>
    by_cases h : p a <;> simp [List.filterMap_cons, List.filter_cons, h, ih]

/-- Characterization of the parsing loop, generalized over the running field
index: it succeeds exactly when the total field count stays within 4 and all
fields parse, returning the parsed values in order. -/
lemma tryParseFields_eq (ps : List (List Char)) :
    ∀ i, i ≤ 4 →
      tryParseFields ps i =
        if (decide (ps.length + i ≤ 4) && ps.all (fun p => (parseU16 p).isSome)) = true
        then .ok (ps.map (fun p => (parseU16 p).getD 0))
        else .error .format := by
  induction ps with
  | nil =>
    intro i hi
    simp [tryParseFields, hi]
  | cons p rest ih =>
    intro i hi
    by_cases h4 : 4 ≤ i
    · have hf : ¬(rest.length + 1 + i ≤ 4) := by omega
      simp [tryParseFields, h4, hf]
    · have hi1 : i + 1 ≤ 4 := by omega
      have hlt : ¬(i ≥ 4) := h4
      cases hp : parseU16 p with
      | none =>
        simp [tryParseFields, hlt, hp]
      | some n =>
        simp only [tryParseFields, hlt, if_false, hp, ih (i + 1) hi1]
        by_cases hc : rest.length + (i + 1) ≤ 4
        · have hc' : rest.length + 1 + i ≤ 4 := by omega
          by_cases hall : rest.all (fun q => (parseU16 q).isSome) = true
          · have hall' : ∀ x ∈ rest, (parseU16 x).isSome = true := by simpa using hall
            simp [hc, hc', hall, hall', hp]
          · have hall' : ¬∀ x ∈ rest, (parseU16 x).isSome = true := by simpa using hall
            simp [hc, hc', hall, hall', hp]
        · have hc' : ¬(rest.length + 1 + i ≤ 4) := by omega
          simp [hc, hc', hp]

/-! The claims. -/

/-- C1 (code_bug): in check_dependencies the `Version` value is read from the
store ROOT node, not from the opened dependency subkey. With no `Version` on
the root, a dependency key carrying `Version` `1.0` is still reported as a
key-only violation with `NotFound`; conversely, a `Version` on the root makes
the call succeed although the dependency key itself has no `Version` value at
all. The claim (and the source's own comment) says the lookup targets the
dependency's key. -/
theorem c1_version_read_from_root_not_subkey :
    check_dependencies storeC1a "Foo" .machine none none none [] =
      (.error .notFound, [Provider.new "Foo"])
  ∧ check_dependencies storeC1b "Foo" .machine none none none [] = (.ok (), []) := by
  constructor <;> decide

/-- C4 (code_bug): evaluation at the failing input. A dependency key that
exists but has no readable `Version` value of its own is NOT reported — the
call succeeds with the violation set untouched, because the code reads the
root's `Version` value instead (first conjunct). The absent-key half of the
claim does behave as stated (second conjunct). -/
theorem c4_missing_version_not_reported :
    check_dependencies storeC4 "Bar" .machine none none none [] = (.ok (), [])
  ∧ check_dependencies storeC4 "Baz" .machine none none none [] =
      (.error .notFound, [Provider.new "Baz"]) := by
  constructor <;> decide

/-- C2 (counterexample): no Attributes value carries both flags — the bit
test for MinVersionInclusive and the bit test for MaxVersionInclusive are
never both true of one value — and consequently no attributes value makes a
call accept equality at an inclusive minimum and, with the same attributes,
equality at an inclusive maximum. -/
theorem c2_counterexample_no_combined_flags :
    (¬ ∃ a : Attributes,
      (Attributes.band a .minVersionInclusive == Attributes.toU32 .minVersionInclusive) = true ∧
        (Attributes.band a .maxVersionInclusive == Attributes.toU32 .maxVersionInclusive) = true)
  ∧ (¬ ∃ a : Attributes,
      (check_dependencies storeC2lo "P" .machine (some v100) (some v200) (some a) []).1 =
          .ok () ∧
        (check_dependencies storeC2hi "P" .machine (some v100) (some v200) (some a) []).1 =
          .ok ()) := by
  constructor
  · rintro ⟨a, h1, h2⟩
    cases a
    · exact absurd h1 (by decide)
    · exact absurd h2 (by decide)
    · exact absurd h1 (by decide)
  · rintro ⟨a, h1, h2⟩
    cases a
    · exact absurd h1 (by decide)
    · exact absurd h2 (by decide)
    · exact absurd h1 (by decide)

/-- C2 (amended): Attributes is a three-valued enum whose BitAnd/BitOr
produce a raw u32 (the intersection of the two flag values is 0, their union
the unrepresentable 0x300), so a single check_dependencies call can treat at
most one bound as inclusive: each flag alone accepts equality at its own
bound, and no single attributes value accepts equality at both bounds. -/
theorem c2_amended_single_inclusive_flag :
    Attributes.band .minVersionInclusive .maxVersionInclusive = 0
  ∧ Attributes.bor .minVersionInclusive .maxVersionInclusive = 0x300
  ∧ (check_dependencies storeC2lo "P" .machine (some v100) (some v200)
      (some .minVersionInclusive) []).1 = .ok ()
  ∧ (check_dependencies storeC2hi "P" .machine (some v100) (some v200)
      (some .maxVersionInclusive) []).1 = .ok ()
  ∧ (∀ a : Attributes,
      ((check_dependencies storeC2lo "P" .machine (some v100) (some v200) (some a) []).1 =
          .ok () ∧
        (check_dependencies storeC2hi "P" .machine (some v100) (some v200) (some a) []).1 =
          .ok ()) → False) := by
  refine ⟨by decide, by decide, by decide, by decide, ?_⟩
  rintro a ⟨h1, h2⟩
  cases a
  · exact absurd h1 (by decide)
  · exact absurd h2 (by decide)
  · exact absurd h1 (by decide)

/-- C3: once the dependency key is open and the version lookup (as the code
performs it) has produced a version, check_dependencies returns success and
leaves the violation set alone exactly when both supplied bounds are
satisfied in the claim's sense — `allow_equal` iff the attributes carry the
respective inclusive flag (false when absent), bound satisfied iff
(`allow_equal` and `min <= version`) or (`min < version`) and symmetrically
for the maximum, a missing bound always passing — and otherwise inserts the
full Provider Record and reports `NotFound`. -/
theorem c3_version_range_check (store : Store) (provider_key : String) (scope : Scope)
    (min_version max_version : Option Version) (attributes : Option Attributes)
    (dependencies : List Provider) (root k : Node) (version : Version)
    (hroot : store scope = .ok root)
    (hopen : Node.openSubkey root provider_key = .ok k)
    (hver : (Node.value root "Version").bind Data.asVersion = some version) :
    check_dependencies store provider_key scope min_version max_version attributes
        dependencies =
      if minSatisfiedSpec min_version attributes version &&
          maxSatisfiedSpec max_version attributes version then
        (.ok (), dependencies)
      else
        (.error .notFound,
          insertProvider dependencies (Provider.fromRequiresDisplayName provider_key k)) := by
  simp only [check_dependencies, hroot, hopen, mapErr, hver, minVersionFails_eq,
    maxVersionFails_eq]
  cases hmin : minSatisfiedSpec min_version attributes version <;>
    cases hmax : maxSatisfiedSpec max_version attributes version <;>
      simp [hmin, hmax]

/-- Witness for C3: provider `Q` registered at 2.0, minimum bound 2.0 with
MinVersionInclusive, no maximum — equality at the inclusive minimum succeeds
with the violation set untouched. -/
theorem c3_range_witness :
    check_dependencies storeC3 "Q" .machine (some v200) none (some .minVersionInclusive) [] =
      (.ok (), []) := by
  have h := c3_version_range_check storeC3 "Q" .machine (some v200) none
    (some .minVersionInclusive) [] rootC3
    (.mk [("DisplayName", .string "Q"), ("Version", .string "2.0")] []) v200
    rfl rfl (by decide)
  rw [h]
  decide

/-- C5: check_dependents turns `NotFound` (the file-not-found code) on the
store root, the provider's key or the `Dependents` child into the successful
"no dependents" result `Ok(None)` and propagates any other store error as a
registry error, while check_dependencies wraps ANY failure to open the store
root — file-not-found included — in the hard `Error::RegistryError`, never
`NotFound`. -/
theorem c5_not_found_signal (store : Store) (provider_key : String) (scope : Scope)
    (attributes : Option Attributes) (ignore : Option (List String))
    (min_version max_version : Option Version) (dependencies : List Provider) (c : Nat) :
    (store scope = .error E_FILE_NOT_FOUND →
      check_dependents store provider_key scope attributes ignore = .ok none)
  ∧ (store scope = .error c → c ≠ E_FILE_NOT_FOUND →
      check_dependents store provider_key scope attributes ignore =
        .error (.registryError c))
  ∧ (∀ root, store scope = .ok root →
      Node.openSubkey root provider_key = .error E_FILE_NOT_FOUND →
      check_dependents store provider_key scope attributes ignore = .ok none)
  ∧ (∀ root, store scope = .ok root → Node.openSubkey root provider_key = .error c →
      c ≠ E_FILE_NOT_FOUND →
      check_dependents store provider_key scope attributes ignore =
        .error (.registryError c))
  ∧ (∀ root k, store scope = .ok root → Node.openSubkey root provider_key = .ok k →
      Node.openSubkey k "Dependents" = .error E_FILE_NOT_FOUND →
      check_dependents store provider_key scope attributes ignore = .ok none)
  ∧ (store scope = .error c →
      (check_dependencies store provider_key scope min_version max_version attributes
        dependencies).1 = .error (.registryError c)) := by
  refine ⟨?_, ?_, ?_, ?_, ?_, ?_⟩
  · intro h
    simp [check_dependents, mapErr, mapRegistryError, h]
  · intro h hc
    simp [check_dependents, mapErr, mapRegistryError, h, hc]
  · intro root h1 h2
    simp [check_dependents, mapErr, mapRegistryError, h1, h2]
  · intro root h1 h2 hc
    simp [check_dependents, mapErr, mapRegistryError, h1, h2, hc]
  · intro root k h1 h2 h3
    simp [check_dependents, mapErr, mapRegistryError, h1, h2, h3]
  · intro h
    simp [check_dependencies, h]

/-- Witness for C5: an absent user hive yields "no dependents", and a denied
store root in check_dependencies surfaces as a registry error carrying the
code, not as `NotFound`. -/
theorem c5_signal_witness :
    check_dependents storeC5 "W" .user none none = .ok none
  ∧ (check_dependencies storeDenied "W" .machine none none none []).1 =
      .error (.registryError 0x80070005) :=
  ⟨(c5_not_found_signal storeC5 "W" .user none none none none [] 0).1 rfl,
   (c5_not_found_signal storeDenied "W" .machine none none none none []
      0x80070005).2.2.2.2.2 rfl⟩

/-- C6: whenever check_dependencies returns success, the violation set it
hands back is exactly the one it was given — no Provider Record is inserted
or removed on the success path. -/
theorem c6_success_preserves_violations (store : Store) (provider_key : String)
    (scope : Scope) (min_version max_version : Option Version)
    (attributes : Option Attributes) (dependencies l : List Provider)
    (h : check_dependencies store provider_key scope min_version max_version attributes
      dependencies = (.ok (), l)) :
    l = dependencies := by
  unfold check_dependencies at h
  repeat' split at h
  all_goals simp_all

/-- Witness for C6: a passing inclusive-minimum check hands back the very
violation set it was given. -/
theorem c6_frame_witness :
    check_dependencies storeC5 "W" .machine (some v100) none (some .minVersionInclusive)
      [Provider.new "Z"] = (.ok (), [Provider.new "Z"])
  ∧ ([Provider.new "Z"] : List Provider) = [Provider.new "Z"] :=
  ⟨by decide,
   c6_success_preserves_violations storeC5 "W" .machine (some v100) none
     (some .minVersionInclusive) [Provider.new "Z"] [Provider.new "Z"] (by decide)⟩

/-- C7 (counterexample): the parser accepts `"vv1"` — `trim_start_matches`
removes EVERY leading `v`/`V` — although the claim's acceptance predicate
(one optional leading `v`/`V` prefix ignored) rejects it. -/
theorem c7_counterexample_double_v :
    Version.try_from "vv1" = .ok (Version.ofFields 1 0 0 0)
  ∧ claimC7Accepts "vv1" = false := by
  constructor <;> decide

/-- C7 (amended): after ALL leading `v`/`V` characters are trimmed, parsing
succeeds exactly when the string consists of 1 to 4 dot-separated fields each
parsing as a 16-bit unsigned integer (omitted trailing fields defaulting to
0), and fails with the Format error otherwise. -/
theorem c7_parse_characterization (s : String) :
    Version.try_from s =
      if specFieldsOk (trimStartVs s.toList) = true then
        .ok (padFields ((splitOnDot (trimStartVs s.toList)).map
          (fun p => (parseU16 p).getD 0)))
      else .error .format := by
  have hs : specFieldsOk (trimStartVs s.toList) =
      (decide ((splitOnDot (trimStartVs s.toList)).length + 0 ≤ 4) &&
        (splitOnDot (trimStartVs s.toList)).all (fun p => (parseU16 p).isSome)) := by
    simp [specFieldsOk]
  unfold Version.try_from
  rw [tryParseFields_eq (splitOnDot (trimStartVs s.toList)) 0 (by omega), hs]
  cases hb : (decide ((splitOnDot (trimStartVs s.toList)).length + 0 ≤ 4) &&
      (splitOnDot (trimStartVs s.toList)).all (fun p => (parseU16 p).isSome)) <;>
    simp [hb]

/-- C8: two Provider Records are equal with identical hashes exactly when
their keys agree after uppercasing; in particular records whose keys differ
only in letter case (all other fields free to differ) are equal and hash
identically. -/
theorem c8_provider_identity_law :
    (∀ p q : Provider,
      (Provider.beq p q = true ∧ Provider.hashValue p = Provider.hashValue q) ↔
        to_uppercase p.key = to_uppercase q.key)
  ∧ (Provider.beq
        { key := "wixPkg", name := "a", version := ⟨1⟩, id := none, attributes := none }
        { key := "WIXpkg", name := "b", version := ⟨2⟩, id := some "x",
          attributes := some .minVersionInclusive } = true
    ∧ Provider.hashValue
        { key := "wixPkg", name := "a", version := ⟨1⟩, id := none, attributes := none } =
      Provider.hashValue
        { key := "WIXpkg", name := "b", version := ⟨2⟩, id := some "x",
          attributes := some .minVersionInclusive }) := by
  constructor
  · intro p q
    constructor
    · rintro ⟨hb, -⟩
      simpa [Provider.beq] using hb
    · intro h
      exact ⟨by simp [Provider.beq, h], by simp [Provider.hashValue, h]⟩
  · exact ⟨by decide, by decide⟩

/-- C9: once the root, the provider's key and its `Dependents` child are all
open, check_dependents returns exactly the enumerated dependent names with
the exact (case-sensitive) members of the ignore set removed, each remaining
name resolved through get_provider or, on any resolution failure, kept as a
bare key-only record; and membership in the ignore set is literal string
membership. -/
theorem c9_dependents_ignore_exact (store : Store) (provider_key : String) (scope : Scope)
    (attributes : Option Attributes) (ignore : Option (List String)) (root k dk : Node)
    (h1 : store scope = .ok root)
    (h2 : Node.openSubkey root provider_key = .ok k)
    (h3 : Node.openSubkey k "Dependents" = .ok dk) :
    check_dependents store provider_key scope attributes ignore =
      .ok (some (((Node.keysList dk).filter (fun name => !(ignoreContains ignore name))).map
        (resolveDependent store scope)))
  ∧ (∀ (l : List String) (name : String), ignoreContains (some l) name = true ↔ name ∈ l) := by
  constructor
  · simp only [check_dependents, h1, h2, h3, mapErr]
    rw [filterMap_skip_eq]
  · intro l name
    constructor
    · exact fun h => List.mem_of_elem_eq_true h
    · exact fun h => List.elem_eq_true_of_mem h

/-- Witness for C9: dependents `a` and `B` with ignore set `{A, B}` — the
name `a`, differing from the ignore entry `A` only in case, is NOT skipped,
and since it cannot be resolved to a full record it comes back as a bare
key-only record; `B` is an exact member and is skipped. -/
theorem c9_ignore_witness :
    check_dependents storeC9 "P" .machine none (some ["A", "B"]) =
      .ok (some [Provider.new "a"]) := by
  have h := (c9_dependents_ignore_exact storeC9 "P" .machine none (some ["A", "B"])
    rootC9 (.mk [] [("Dependents", .ok depsC9)]) depsC9 rfl rfl rfl).1
  rw [h]
  decide

/-- C10: the store-value decoder is not total over buffer lengths — with the
32-bit-integer tag it panics exactly when the buffer is not 4 bytes, with the
64-bit-integer tag exactly when it is not 8 bytes, and in neither case does
it return the undecodable/absent result. -/
theorem c10_decoder_partial (data : List Nat) :
    (Data.fromBytes data REG_DWORD = .panicked ↔ data.length ≠ 4)
  ∧ (Data.fromBytes data REG_QWORD = .panicked ↔ data.length ≠ 8)
  ∧ Data.fromBytes data REG_DWORD ≠ .value none
  ∧ Data.fromBytes data REG_QWORD ≠ .value none := by
  refine ⟨?_, ?_, ?_, ?_⟩
  · by_cases h : data.length = 4 <;>
      simp [Data.fromBytes, REG_BINARY, REG_DWORD, REG_QWORD, REG_SZ, REG_EXPAND_SZ,
        REG_MULTI_SZ, h]
  · by_cases h : data.length = 8 <;>
      simp [Data.fromBytes, REG_BINARY, REG_DWORD, REG_QWORD, REG_SZ, REG_EXPAND_SZ,
        REG_MULTI_SZ, h]
  · by_cases h : data.length = 4 <;>
      simp [Data.fromBytes, REG_BINARY, REG_DWORD, REG_QWORD, REG_SZ, REG_EXPAND_SZ,
        REG_MULTI_SZ, h]
  · by_cases h : data.length = 8 <;>
      simp [Data.fromBytes, REG_BINARY, REG_DWORD, REG_QWORD, REG_SZ, REG_EXPAND_SZ,
        REG_MULTI_SZ, h]
